import Mathlib

/-!
Shallow embedding of the ShopSphere payment subsystem
(`backend/models/payment.py`, `backend/crud/payment.py`,
`backend/services/stripe_service.py`, `backend/services/paypal_service.py`,
`backend/api/payments.py`) and proofs about it.

Monetary amounts are modelled as `Rat` (the Python source stores them as
floats; every amount appearing in the claims is exactly representable, so
rational arithmetic coincides with the float arithmetic of the source there).
Python integers are modelled as `Int`.  Timestamps (`datetime.utcnow()`)
are threaded in as an explicit `now : Nat` parameter.  Database rows live
in in-memory lists; the SQLAlchemy `.first()` lookup is `List.find?` and a
row mutation followed by `commit` is an in-place replacement of the first
matching row.  External provider calls (Stripe/PayPal SDK, HTTP) are
inputs of type `Except String _`: `ok` is the parsed provider response,
`error msg` is a raised exception whose `str` is `msg`.
-/

namespace ShopSphere

/-- Source `models/payment.py` `PaymentStatus`. -/
inductive PaymentStatus where
  | PENDING
  | PROCESSING
  | SUCCEEDED
  | FAILED
  | CANCELLED
  | REFUNDED
  | PARTIALLY_REFUNDED
  deriving DecidableEq, Repr

/-- Source `models/payment.py` `PaymentProvider`. -/
inductive PaymentProvider where
  | STRIPE
  | PAYPAL
  deriving DecidableEq, Repr

/-- Source `models/payment.py` `RefundStatus`. -/
inductive RefundStatus where
  | PENDING
  | PROCESSING
  | SUCCEEDED
  | FAILED
  | CANCELLED
  deriving DecidableEq, Repr

/-- Source `models/item.py` `Purchase` (the fields the payment code reads). -/
structure Purchase where
  id : Int
  customer_id : Int
  total_price : Rat
  deriving DecidableEq, Repr

/-- Source `models/payment.py` `Payment` row. -/
structure Payment where
  id : Int
  purchase_id : Int
  user_id : Int
  amount : Rat
  currency : String
  status : PaymentStatus
  provider : PaymentProvider
  provider_payment_id : Option String
  provider_charge_id : Option String
  payment_method : Option String
  payment_metadata : List (String × String)
  failure_code : Option String
  failure_message : Option String
  created_at : Nat
  updated_at : Option Nat
  succeeded_at : Option Nat
  failed_at : Option Nat
  deriving DecidableEq, Repr

/-- Source `models/payment.py` `Refund` row. -/
structure Refund where
  id : Int
  payment_id : Int
  amount : Rat
  currency : String
  status : RefundStatus
  reason : Option String
  provider_refund_id : Option String
  admin_notes : Option String
  failure_code : Option String
  failure_message : Option String
  created_at : Nat
  updated_at : Option Nat
  succeeded_at : Option Nat
  failed_at : Option Nat
  initiated_by : Option Int
  deriving DecidableEq, Repr

/-- The relational store the payment code touches, plus the
auto-increment counters of the `payments` and `refunds` tables. -/
structure DB where
  purchases : List Purchase
  payments : List Payment
  refunds : List Refund
  next_payment_id : Int
  next_refund_id : Int
  deriving DecidableEq, Repr

/-- Python truthiness of an optional string argument: `None` and `""`
are falsy, every other string is truthy (used by the
`if provider_payment_id:`-style guards in `crud/payment.py`). -/
def pyTruthy : Option String → Bool
  | none => false
  | some s => !(s == "")

/-- ASCII whitespace stripped by Python `int(str)`. -/
def isSpaceChar (c : Char) : Bool :=
  c = ' ' || c = '\t' || c = '\n' || c = '\r'

/-- A non-empty all-digit character run read as a number. -/
def digitsToNat (cs : List Char) : Option Nat :=
  if cs.isEmpty then none
  else if cs.all (fun c => c.isDigit) then
    some (cs.foldl (fun acc c => 10 * acc + (c.toNat - 48)) 0)
  else none

/-- Python `int(s)` on a string, as used on `custom_id` in
`paypal_webhook`: optional surrounding whitespace, optional sign, decimal
digits; `none` models a raised `ValueError`.  (Exotic accepted forms such
as digit-group underscores or non-ASCII digits are not modelled.) -/
def pyInt? (s : String) : Option Int :=
  let cs := ((s.toList.dropWhile isSpaceChar).reverse.dropWhile
    isSpaceChar).reverse
  match cs with
  | '+' :: rest => (digitsToNat rest).map (fun n => (n : Int))
  | '-' :: rest => (digitsToNat rest).map (fun n => -(n : Int))
  | _ => (digitsToNat cs).map (fun n => (n : Int))

/-- Replace the first element satisfying `pred` by its image under `f`;
models mutating the single row returned by a `.filter(...).first()`
query and committing. -/
def updateFirst (pred : α → Bool) (f : α → α) : List α → List α
  | [] => []
  | x :: xs => if pred x then f x :: xs else x :: updateFirst pred f xs

/-- Source `crud/item.py` `get_purchase`. -/
def get_purchase (db : DB) (purchase_id : Int) : Option Purchase :=
  db.purchases.find? (fun pu => pu.id == purchase_id)

namespace PaymentCRUD

/-- Source `PaymentCRUD.get_payment_by_id`. -/
def get_payment_by_id (db : DB) (payment_id : Int) : Option Payment :=
  db.payments.find? (fun p => p.id == payment_id)

/-- Source `PaymentCRUD.get_payment_by_provider_id`. -/
def get_payment_by_provider_id (db : DB) (provider_payment_id : String) :
    Option Payment :=
  db.payments.find? (fun p => p.provider_payment_id == some provider_payment_id)

/-- Source `PaymentCRUD.get_payments_by_purchase`. -/
def get_payments_by_purchase (db : DB) (purchase_id : Int) : List Payment :=
  db.payments.filter (fun p => p.purchase_id == purchase_id)

/-- Source `PaymentCRUD.get_refund_by_id`. -/
def get_refund_by_id (db : DB) (refund_id : Int) : Option Refund :=
  db.refunds.find? (fun r => r.id == refund_id)

/-- The data `PaymentCreate` carries into `PaymentCRUD.create_payment`
(schema defaults: `currency="usd"` is supplied by the caller here). -/
structure PaymentCreate where
  purchase_id : Int
  amount : Rat
  currency : String
  provider : PaymentProvider
  payment_method : Option String
  payment_metadata : List (String × String)

/-- Source `PaymentCRUD.create_payment`: inserts a fresh row; the model default
`status=PaymentStatus.PENDING` applies, provider ids start out NULL. -/
def create_payment (db : DB) (payment : PaymentCreate) (user_id : Int)
    (now : Nat) : Payment × DB :=
  let db_payment : Payment :=
    { id := db.next_payment_id
      purchase_id := payment.purchase_id
      user_id := user_id
      amount := payment.amount
      currency := payment.currency
      status := PaymentStatus.PENDING
      provider := payment.provider
      provider_payment_id := none
      provider_charge_id := none
      payment_method := payment.payment_method
      payment_metadata := payment.payment_metadata
      failure_code := none
      failure_message := none
      created_at := now
      updated_at := none
      succeeded_at := none
      failed_at := none }
  (db_payment,
   { db with payments := db.payments ++ [db_payment]
             next_payment_id := db.next_payment_id + 1 })

/-- Body of `PaymentCRUD.update_payment_status` applied to the found row:
always overwrite `status`; copy each optional field only when truthy;
stamp `succeeded_at` on SUCCEEDED and `failed_at` on FAILED/CANCELLED;
the ORM `onupdate` clause refreshes `updated_at` on commit. -/
def applyPaymentStatus (p : Payment) (status : PaymentStatus)
    (provider_payment_id provider_charge_id failure_code failure_message :
      Option String) (now : Nat) : Payment :=
  let p := { p with status := status }
  let p := if pyTruthy provider_payment_id then
      { p with provider_payment_id := provider_payment_id } else p
  let p := if pyTruthy provider_charge_id then
      { p with provider_charge_id := provider_charge_id } else p
  let p := if pyTruthy failure_code then
      { p with failure_code := failure_code } else p
  let p := if pyTruthy failure_message then
      { p with failure_message := failure_message } else p
  let p := if status == PaymentStatus.SUCCEEDED then
      { p with succeeded_at := some now }
    else if status == PaymentStatus.FAILED || status == PaymentStatus.CANCELLED then
      { p with failed_at := some now }
    else p
  { p with updated_at := some now }

/-- Source `PaymentCRUD.update_payment_status`: `None` (and unchanged `db`) when
the id is not found, else the refreshed row and the committed store. -/
def update_payment_status (db : DB) (payment_id : Int) (status : PaymentStatus)
    (provider_payment_id provider_charge_id failure_code failure_message :
      Option String) (now : Nat) : Option Payment × DB :=
  match get_payment_by_id db payment_id with
  | none => (none, db)
  | some _ =>
    let payments' :=
      updateFirst (fun p => p.id == payment_id)
        (fun p => applyPaymentStatus p status provider_payment_id
          provider_charge_id failure_code failure_message now)
        db.payments
    let db' : DB := { db with payments := payments' }
    (get_payment_by_id db' payment_id, db')

/-- The data `RefundCreate` carries into `PaymentCRUD.create_refund`. -/
structure RefundCreate where
  payment_id : Int
  amount : Rat
  currency : String
  reason : Option String
  admin_notes : Option String

/-- Source `PaymentCRUD.create_refund`: inserts a fresh refund row; model
default `status=RefundStatus.PENDING` applies. -/
def create_refund (db : DB) (refund : RefundCreate) (initiated_by : Int)
    (now : Nat) : Refund × DB :=
  let db_refund : Refund :=
    { id := db.next_refund_id
      payment_id := refund.payment_id
      amount := refund.amount
      currency := refund.currency
      status := RefundStatus.PENDING
      reason := refund.reason
      provider_refund_id := none
      admin_notes := refund.admin_notes
      failure_code := none
      failure_message := none
      created_at := now
      updated_at := none
      succeeded_at := none
      failed_at := none
      initiated_by := some initiated_by }
  (db_refund,
   { db with refunds := db.refunds ++ [db_refund]
             next_refund_id := db.next_refund_id + 1 })

/-- Body of `PaymentCRUD.update_refund_status` on the found row. -/
def applyRefundStatus (r : Refund) (status : RefundStatus)
    (provider_refund_id failure_code failure_message : Option String)
    (now : Nat) : Refund :=
  let r := { r with status := status }
  let r := if pyTruthy provider_refund_id then
      { r with provider_refund_id := provider_refund_id } else r
  let r := if pyTruthy failure_code then
      { r with failure_code := failure_code } else r
  let r := if pyTruthy failure_message then
      { r with failure_message := failure_message } else r
  let r := if status == RefundStatus.SUCCEEDED then
      { r with succeeded_at := some now }
    else if status == RefundStatus.FAILED || status == RefundStatus.CANCELLED then
      { r with failed_at := some now }
    else r
  { r with updated_at := some now }

/-- Source `PaymentCRUD.update_refund_status`. -/
def update_refund_status (db : DB) (refund_id : Int) (status : RefundStatus)
    (provider_refund_id failure_code failure_message : Option String)
    (now : Nat) : Option Refund × DB :=
  match get_refund_by_id db refund_id with
  | none => (none, db)
  | some _ =>
    let refunds' :=
      updateFirst (fun r => r.id == refund_id)
        (fun r => applyRefundStatus r status provider_refund_id
          failure_code failure_message now)
        db.refunds
    let db' : DB := { db with refunds := refunds' }
    (get_refund_by_id db' refund_id, db')

/-- Source `PaymentCRUD.calculate_refundable_amount`: zero unless the payment
exists and is SUCCEEDED; otherwise the amount minus the SQL sum of
SUCCEEDED refund amounts (`None` when the filter matches no row, and the
Python guard `float(x) if x else 0.0` also sends an exact-zero sum to
`0.0`), clamped below by `max(0.0, ...)`. -/
def calculate_refundable_amount (db : DB) (payment_id : Int) : Rat :=
  match get_payment_by_id db payment_id with
  | none => 0
  | some payment =>
    if payment.status ≠ PaymentStatus.SUCCEEDED then 0
    else
      let amounts :=
        (db.refunds.filter (fun r =>
          r.payment_id == payment_id && r.status == RefundStatus.SUCCEEDED)).map
          (fun r => r.amount)
      let successful_refunds : Option Rat :=
        if amounts.isEmpty then none else some amounts.sum
      let refunded_amount : Rat :=
        match successful_refunds with
        | none => 0
        | some v => if v == 0 then 0 else v
      max 0 (payment.amount - refunded_amount)

end PaymentCRUD

namespace StripeService

/-- Source `StripeService.map_stripe_status_to_payment_status`: the
`status_mapping` dict with `.get(stripe_status, PaymentStatus.FAILED)`. -/
def map_stripe_status_to_payment_status (stripe_status : String) :
    PaymentStatus :=
  let status_mapping : List (String × PaymentStatus) :=
    [("requires_payment_method", PaymentStatus.PENDING),
     ("requires_confirmation", PaymentStatus.PENDING),
     ("requires_action", PaymentStatus.PENDING),
     ("processing", PaymentStatus.PROCESSING),
     ("requires_capture", PaymentStatus.PROCESSING),
     ("succeeded", PaymentStatus.SUCCEEDED),
     ("canceled", PaymentStatus.CANCELLED)]
  match status_mapping.lookup stripe_status with
  | some v => v
  | none => PaymentStatus.FAILED

/-- Source `StripeService.map_stripe_refund_status_to_refund_status`. -/
def map_stripe_refund_status_to_refund_status (stripe_status : String) :
    RefundStatus :=
  let status_mapping : List (String × RefundStatus) :=
    [("pending", RefundStatus.PENDING),
     ("succeeded", RefundStatus.SUCCEEDED),
     ("failed", RefundStatus.FAILED),
     ("canceled", RefundStatus.CANCELLED)]
  match status_mapping.lookup stripe_status with
  | some v => v
  | none => RefundStatus.FAILED

end StripeService

namespace PayPalService

/-- Source `PayPalService.map_paypal_status_to_payment_status`. -/
def map_paypal_status_to_payment_status (paypal_status : String) :
    PaymentStatus :=
  let status_mapping : List (String × PaymentStatus) :=
    [("CREATED", PaymentStatus.PENDING),
     ("SAVED", PaymentStatus.PENDING),
     ("APPROVED", PaymentStatus.PROCESSING),
     ("VOIDED", PaymentStatus.CANCELLED),
     ("COMPLETED", PaymentStatus.SUCCEEDED),
     ("PAYER_ACTION_REQUIRED", PaymentStatus.PENDING)]
  match status_mapping.lookup paypal_status with
  | some v => v
  | none => PaymentStatus.FAILED

/-- The five `PAYPAL-*` headers `verify_webhook_signature` reads
(`headers.get(...)`, so each is `None` when absent). -/
structure PayPalHeaders where
  auth_algo : Option String
  transmission_id : Option String
  cert_id : Option String
  transmission_sig : Option String
  transmission_time : Option String
  deriving DecidableEq, Repr

/-- Source `PayPalService.verify_webhook_signature`: only a presence check —
`all(required_headers)` is `True` exactly when every header is present
and non-empty (Python truthiness); the payload `body`, the stored
`webhook_id` and the signature value itself are never used in any
cryptographic computation. -/
def verify_webhook_signature (headers : PayPalHeaders) (_body : String)
    (_webhook_id : String) : Bool :=
  pyTruthy headers.auth_algo && pyTruthy headers.transmission_id &&
  pyTruthy headers.cert_id && pyTruthy headers.transmission_sig &&
  pyTruthy headers.transmission_time

end PayPalService

namespace Api

/-- An `HTTPException(status_code, detail)` raised by a handler.
For the "exceeds refundable" branch the source appends the computed
amount to the detail text; the constant portion is modelled. -/
inductive HErr where
  | http : Nat → String → HErr
  deriving DecidableEq, Repr

/-- Request body of `POST /api/payments/intent`. -/
structure PaymentIntentCreate where
  purchase_id : Int
  provider : PaymentProvider
  payment_method_type : Option String
  return_url : Option String
  metadata : Option (List (String × String))

/-- The fields the handler reads from a successful
`stripe_service.create_payment_intent` response. -/
structure StripeIntent where
  id : String
  client_secret : String
  currency : String
  deriving DecidableEq, Repr

/-- The fields the handler reads from a successful
`paypal_service.create_order` response. -/
structure PayPalOrder where
  id : String
  approval_url : Option String
  currency : String
  deriving DecidableEq, Repr

/-- Source `PaymentIntentResponse` returned to the client. -/
structure PaymentIntentResponse where
  payment_id : Int
  client_secret : Option String
  approval_url : Option String
  provider_payment_id : String
  amount : Rat
  currency : String
  status : PaymentStatus
  deriving DecidableEq, Repr

/-- Source `create_payment_intent` handler (`api/payments.py`).  The two
provider calls are inputs: `Except.ok` is the parsed adapter response,
`Except.error msg` a raised exception with `str(e) = msg`, which the
handler records on the row as FAILED before re-raising as HTTP 400. -/
def create_payment_intent (db : DB) (intent_data : PaymentIntentCreate)
    (current_user : Int) (stripe_result : Except String StripeIntent)
    (paypal_result : Except String PayPalOrder) (now : Nat) :
    Except HErr PaymentIntentResponse × DB :=
  match get_purchase db intent_data.purchase_id with
  | none => (Except.error (HErr.http 404 "Purchase not found"), db)
  | some purchase =>
    if purchase.customer_id ≠ current_user then
      (Except.error (HErr.http 403 "Not authorized to pay for this purchase"), db)
    else
      let existing_payments :=
        PaymentCRUD.get_payments_by_purchase db intent_data.purchase_id
      if existing_payments.any (fun p => p.status == PaymentStatus.SUCCEEDED) then
        (Except.error (HErr.http 400 "Purchase already paid"), db)
      else
        let payment_create : PaymentCRUD.PaymentCreate :=
          { purchase_id := intent_data.purchase_id
            amount := purchase.total_price
            currency := "usd"
            provider := intent_data.provider
            payment_method := intent_data.payment_method_type
            payment_metadata := intent_data.metadata.getD [] }
        let pdb := PaymentCRUD.create_payment db payment_create current_user now
        let payment := pdb.1
        let db1 := pdb.2
        match intent_data.provider with
        | PaymentProvider.STRIPE =>
          match stripe_result with
          | Except.ok stripe_intent =>
            let db2 := (PaymentCRUD.update_payment_status db1 payment.id
              PaymentStatus.PENDING (some stripe_intent.id) none none none now).2
            (Except.ok
              { payment_id := payment.id
                client_secret := some stripe_intent.client_secret
                approval_url := none
                provider_payment_id := stripe_intent.id
                amount := purchase.total_price
                currency := stripe_intent.currency
                status := PaymentStatus.PENDING }, db2)
          | Except.error msg =>
            let db2 := (PaymentCRUD.update_payment_status db1 payment.id
              PaymentStatus.FAILED none none none (some msg) now).2
            (Except.error (HErr.http 400 msg), db2)
        | PaymentProvider.PAYPAL =>
          match paypal_result with
          | Except.ok paypal_order =>
            let db2 := (PaymentCRUD.update_payment_status db1 payment.id
              PaymentStatus.PENDING (some paypal_order.id) none none none now).2
            (Except.ok
              { payment_id := payment.id
                client_secret := none
                approval_url := paypal_order.approval_url
                provider_payment_id := paypal_order.id
                amount := purchase.total_price
                currency := paypal_order.currency
                status := PaymentStatus.PENDING }, db2)
          | Except.error msg =>
            let db2 := (PaymentCRUD.update_payment_status db1 payment.id
              PaymentStatus.FAILED none none none (some msg) now).2
            (Except.error (HErr.http 400 msg), db2)

/-- The field the refund branches read from a successful provider refund
response (`stripe_refund["id"]` / `paypal_refund["id"]`). -/
structure ProviderRefund where
  id : String
  deriving DecidableEq, Repr

/-- Source `create_refund` handler (`api/payments.py`).  After validation it
inserts a PENDING refund row, calls the provider adapter, records a
provider failure as refund FAILED before re-raising, and — on the
provider-success path — immediately recomputes the payment status from
the *requested* amount (`refund_data.amount == refundable_amount` gives
REFUNDED, else `refundable_amount - refund_data.amount < payment.amount`
gives PARTIALLY_REFUNDED) while the refund row is still PENDING. -/
def create_refund (db : DB) (refund_data : PaymentCRUD.RefundCreate)
    (current_user : Int) (stripe_refund_result : Except String ProviderRefund)
    (paypal_refund_result : Except String ProviderRefund) (now : Nat) :
    Except HErr Int × DB :=
  match PaymentCRUD.get_payment_by_id db refund_data.payment_id with
  | none => (Except.error (HErr.http 404 "Payment not found"), db)
  | some payment =>
    if payment.status ≠ PaymentStatus.SUCCEEDED then
      (Except.error (HErr.http 400 "Cannot refund unsuccessful payment"), db)
    else
      let refundable_amount :=
        PaymentCRUD.calculate_refundable_amount db refund_data.payment_id
      if refundable_amount < refund_data.amount then
        (Except.error (HErr.http 400 "Refund amount exceeds refundable amount"), db)
      else
        let rdb := PaymentCRUD.create_refund db refund_data current_user now
        let refund := rdb.1
        let db1 := rdb.2
        let provider_step : Except String DB :=
          match payment.provider with
          | PaymentProvider.STRIPE =>
            match stripe_refund_result with
            | Except.ok stripe_refund =>
              Except.ok (PaymentCRUD.update_refund_status db1 refund.id
                RefundStatus.PENDING (some stripe_refund.id) none none now).2
            | Except.error msg => Except.error msg
          | PaymentProvider.PAYPAL =>
            match payment.provider_charge_id with
            | none => Except.error "Cannot find PayPal capture ID for refund"
            | some _capture_id =>
              match paypal_refund_result with
              | Except.ok paypal_refund =>
                Except.ok (PaymentCRUD.update_refund_status db1 refund.id
                  RefundStatus.PENDING (some paypal_refund.id) none none now).2
              | Except.error msg => Except.error msg
        match provider_step with
        | Except.error msg =>
          let db' := (PaymentCRUD.update_refund_status db1 refund.id
            RefundStatus.FAILED none none (some msg) now).2
          (Except.error (HErr.http 400 msg), db')
        | Except.ok db2 =>
          let db3 :=
            if refund_data.amount == refundable_amount then
              (PaymentCRUD.update_payment_status db2 payment.id
                PaymentStatus.REFUNDED none none none none now).2
            else if refundable_amount - refund_data.amount < payment.amount then
              (PaymentCRUD.update_payment_status db2 payment.id
                PaymentStatus.PARTIALLY_REFUNDED none none none none now).2
            else db2
          (Except.ok refund.id, db3)

/-- The object inside a Stripe `payment_intent.*` event, as read by the
handler: its `id`, the charge-id list behind
`charges.data` (`none` when the `charges`/`data` keys are absent, in
which case the chained `.get` defaults make the extracted id `None`),
and the `last_payment_error` code/message. -/
structure StripeEventObject where
  id : String
  charges_data : Option (List (Option String))
  last_payment_error_code : Option String
  last_payment_error_message : Option String
  deriving DecidableEq, Repr

/-- A verified Stripe webhook event: `event["type"]` and
`event["data"]["object"]`. -/
structure StripeEvent where
  type_ : String
  obj : StripeEventObject
  deriving DecidableEq, Repr

/-- Source `payment_intent.get("charges", \x7b\x7d).get("data", [\x7b\x7d])[0].get("id")`:
missing keys default to an id of `None`, but a present-and-empty
`charges.data` list raises `IndexError` (caught by the outer handler
`except`, which turns it into HTTP 400). -/
def extractChargeId : Option (List (Option String)) →
    Except String (Option String)
  | none => Except.ok none
  | some [] => Except.error "list index out of range"
  | some (c :: _) => Except.ok c

/-- Source `stripe_webhook` handler.  `event_result` is the outcome of
`stripe_service.construct_webhook_event` (SDK signature verification):
`error msg` models the raised verification/payload exception, which the
outer `except` returns as HTTP 400 without touching the store. -/
def stripe_webhook (db : DB) (event_result : Except String StripeEvent)
    (now : Nat) : Except HErr String × DB :=
  match event_result with
  | Except.error msg => (Except.error (HErr.http 400 msg), db)
  | Except.ok event =>
    if event.type_ == "payment_intent.succeeded" then
      match PaymentCRUD.get_payment_by_provider_id db event.obj.id with
      | none => (Except.ok "success", db)
      | some payment =>
        match extractChargeId event.obj.charges_data with
        | Except.error msg => (Except.error (HErr.http 400 msg), db)
        | Except.ok charge_id =>
          let db' := (PaymentCRUD.update_payment_status db payment.id
            PaymentStatus.SUCCEEDED none charge_id none none now).2
          (Except.ok "success", db')
    else if event.type_ == "payment_intent.payment_failed" then
      match PaymentCRUD.get_payment_by_provider_id db event.obj.id with
      | none => (Except.ok "success", db)
      | some payment =>
        let db' := (PaymentCRUD.update_payment_status db payment.id
          PaymentStatus.FAILED none none event.obj.last_payment_error_code
          event.obj.last_payment_error_message now).2
        (Except.ok "success", db')
    else
      (Except.ok "success", db)

/-- The `resource` object of a PayPal capture event: `resource.get("id")`
and `resource.get("custom_id")`. -/
structure PayPalResource where
  id : Option String
  custom_id : Option String
  deriving DecidableEq, Repr

/-- A parsed PayPal webhook body: `event_data.get("event_type")` and
`event_data["resource"]`. -/
structure PayPalEvent where
  event_type : Option String
  resource : PayPalResource
  deriving DecidableEq, Repr

/-- Source `paypal_webhook` handler.  Signature verification is the
header-presence check of `PayPalService.verify_webhook_signature`;
`parse_result` is the outcome of `json.loads` on the body. -/
def paypal_webhook (db : DB) (headers : PayPalService.PayPalHeaders)
    (body : String) (parse_result : Except String PayPalEvent) (now : Nat) :
    Except HErr String × DB :=
  if !(PayPalService.verify_webhook_signature headers body "webhook_id") then
    (Except.error (HErr.http 400 "Invalid webhook signature"), db)
  else
    match parse_result with
    | Except.error msg => (Except.error (HErr.http 400 msg), db)
    | Except.ok event_data =>
      if event_data.event_type == some "PAYMENT.CAPTURE.COMPLETED" then
        match event_data.resource.custom_id with
        | none => (Except.ok "success", db)
        | some custom_id =>
          match pyInt? custom_id with
          | none => (Except.ok "success", db)
          | some purchase_id =>
            let payments := PaymentCRUD.get_payments_by_purchase db purchase_id
            match payments.find? (fun p =>
                p.provider == PaymentProvider.PAYPAL &&
                p.status == PaymentStatus.PENDING) with
            | none => (Except.ok "success", db)
            | some payment =>
              let db' := (PaymentCRUD.update_payment_status db payment.id
                PaymentStatus.SUCCEEDED none event_data.resource.id none none
                now).2
              (Except.ok "success", db')
      else if event_data.event_type == some "PAYMENT.CAPTURE.DENIED" then
        match event_data.resource.custom_id with
        | none => (Except.ok "success", db)
        | some custom_id =>
          match pyInt? custom_id with
          | none => (Except.ok "success", db)
          | some purchase_id =>
            let payments := PaymentCRUD.get_payments_by_purchase db purchase_id
            match payments.find? (fun p =>
                p.provider == PaymentProvider.PAYPAL &&
                p.status == PaymentStatus.PENDING) with
            | none => (Except.ok "success", db)
            | some payment =>
              let db' := (PaymentCRUD.update_payment_status db payment.id
                PaymentStatus.FAILED none none none
                (some "Payment denied by PayPal") now).2
              (Except.ok "success", db')
      else
        (Except.ok "success", db)

end Api

/-- Spec wording: "sum of SUCCEEDED refund amounts for that payment". -/
def succeededRefundTotal (db : DB) (payment_id : Int) : Rat :=
  ((db.refunds.filter (fun r =>
    r.payment_id == payment_id && r.status == RefundStatus.SUCCEEDED)).map
    (fun r => r.amount)).sum

/-- The spec formula for `refundable_amount(payment_id)` — payment
amount minus the SUCCEEDED refund total, zero when the payment is absent
or not itself SUCCEEDED — amended with the `max 0` clamp the source
applies (the unclamped formula goes negative when the recorded SUCCEEDED
refunds exceed the payment amount). -/
def refundable_amount_spec (db : DB) (payment_id : Int) : Rat :=
  match PaymentCRUD.get_payment_by_id db payment_id with
  | none => 0
  | some payment =>
    if payment.status = PaymentStatus.SUCCEEDED then
      max 0 (payment.amount - succeededRefundTotal db payment_id)
    else 0

/-- Payment #7 of Scenario B of the spec: SUCCEEDED, 100.00, Stripe. -/
def scenarioPayment : Payment :=
  { id := 7
    purchase_id := 1
    user_id := 1
    amount := 100
    currency := "usd"
    status := PaymentStatus.SUCCEEDED
    provider := PaymentProvider.STRIPE
    provider_payment_id := some "pi_1"
    provider_charge_id := some "ch_1"
    payment_method := none
    payment_metadata := []
    failure_code := none
    failure_message := none
    created_at := 0
    updated_at := none
    succeeded_at := some 1
    failed_at := none }

/-- Store holding purchase #1 (owner user #1, total 100.00) and its
SUCCEEDED payment #7, no refunds yet. -/
def scenarioDB : DB :=
  { purchases := [{ id := 1, customer_id := 1, total_price := 100 }]
    payments := [scenarioPayment]
    refunds := []
    next_payment_id := 8
    next_refund_id := 1 }

/-- A SUCCEEDED refund of 80.00 against payment #1. -/
def overRefund : Refund :=
  { id := 1
    payment_id := 1
    amount := 80
    currency := "usd"
    status := RefundStatus.SUCCEEDED
    reason := none
    provider_refund_id := some "re_over"
    admin_notes := none
    failure_code := none
    failure_message := none
    created_at := 0
    updated_at := none
    succeeded_at := some 1
    failed_at := none
    initiated_by := some 99 }

/-- Store where the SUCCEEDED refund total (80.00) exceeds the owning
SUCCEEDED payment amount (50.00). -/
def overRefundDB : DB :=
  { purchases := []
    payments := [{ scenarioPayment with id := 1, amount := 50 }]
    refunds := [overRefund]
    next_payment_id := 2
    next_refund_id := 2 }

/-- A Stripe `payment_intent.succeeded` event for intent `pi_9` whose
charge list carries charge `ch_9`. -/
def replayEvent : Api.StripeEvent :=
  { type_ := "payment_intent.succeeded"
    obj := { id := "pi_9"
             charges_data := some [some "ch_9"]
             last_payment_error_code := none
             last_payment_error_message := none } }

/-- Store holding the PENDING payment #9 awaiting intent `pi_9`. -/
def replayDB : DB :=
  { purchases := []
    payments := [{ scenarioPayment with
      id := 9
      status := PaymentStatus.PENDING
      provider_payment_id := some "pi_9"
      provider_charge_id := none
      succeeded_at := none }]
    refunds := []
    next_payment_id := 10
    next_refund_id := 1 }

/-- Store with purchase #1 (owner user #1, total 50.00) and an empty
payments table, auto-increment at 1. -/
def intentDB : DB :=
  { purchases := [{ id := 1, customer_id := 1, total_price := 50 }]
    payments := []
    refunds := []
    next_payment_id := 1
    next_refund_id := 1 }

/-- A PayPal-webhook header set with all five `PAYPAL-*` headers. -/
def fullHeaders : PayPalService.PayPalHeaders :=
  { auth_algo := some "SHA256withRSA"
    transmission_id := some "t-1"
    cert_id := some "c-1"
    transmission_sig := some "sig-1"
    transmission_time := some "2026-01-01" }

/-- A PayPal `PAYMENT.CAPTURE.COMPLETED` event whose capture id is
`cap_1` and whose `custom_id` carries purchase id 3. -/
def captureEvent : Api.PayPalEvent :=
  { event_type := some "PAYMENT.CAPTURE.COMPLETED"
    resource := { id := some "cap_1", custom_id := some "3" } }

/-- Store with four payments for purchases #3/#4 covering the selection
cases of the PayPal capture handler: a PENDING Stripe payment (#1), an
already SUCCEEDED PayPal payment (#2) and a PENDING PayPal payment (#3)
all for purchase #3, and a PENDING PayPal payment (#4) for purchase #4. -/
def captureDB : DB :=
  { purchases := []
    payments :=
      [{ scenarioPayment with id := 1, purchase_id := 3, status := PaymentStatus.PENDING, provider := PaymentProvider.STRIPE, succeeded_at := none },
       { scenarioPayment with id := 2, purchase_id := 3, status := PaymentStatus.SUCCEEDED, provider := PaymentProvider.PAYPAL },
       { scenarioPayment with id := 3, purchase_id := 3, status := PaymentStatus.PENDING, provider := PaymentProvider.PAYPAL, succeeded_at := none },
       { scenarioPayment with id := 4, purchase_id := 4, status := PaymentStatus.PENDING, provider := PaymentProvider.PAYPAL, succeeded_at := none }]
    refunds := []
    next_payment_id := 5
    next_refund_id := 1 }

/-! ### Helper lemmas about the list primitives of the embedding -/

theorem mem_updateFirst_of_pred_false {α : Type _} {pred : α → Bool}
    {f : α → α} {q : α} :
    ∀ {l : List α}, pred q = false → q ∈ l → q ∈ updateFirst pred f l := by
  intro l
  induction l with
  | nil => intro _ h; simp at h
  | cons x xs ih =>
    intro hq hm
    rcases List.mem_cons.1 hm with h | h
    · subst h
      simp [updateFirst, hq]
    · by_cases hx : pred x = true
      · simp only [updateFirst, if_pos hx]
        exact List.mem_cons.2 (Or.inr h)
      · simp only [updateFirst, if_neg hx]
        exact List.mem_cons.2 (Or.inr (ih hq h))

theorem find?_updateFirst_self {α : Type _} {pred : α → Bool} {f : α → α} :
    ∀ {l : List α} {a : α}, l.find? pred = some a → pred (f a) = true →
      (updateFirst pred f l).find? pred = some (f a) := by
  intro l
  induction l with
  | nil => intro a h _; simp [List.find?] at h
  | cons x xs ih =>
    intro a h hf
    by_cases hx : pred x = true
    · rw [List.find?_cons_of_pos _ hx] at h
      cases h
      simp only [updateFirst, if_pos hx]
      exact List.find?_cons_of_pos _ hf
    · rw [List.find?_cons_of_neg _ hx] at h
      simp only [updateFirst, if_neg hx]
      rw [List.find?_cons_of_neg _ hx]
      exact ih h hf

theorem updateFirst_append_of_forall_false {α : Type _} {pred : α → Bool}
    {f : α → α} :
    ∀ {l l2 : List α}, (∀ x ∈ l, pred x = false) →
      updateFirst pred f (l ++ l2) = l ++ updateFirst pred f l2 := by
  intro l
  induction l with
  | nil => intro l2 _; simp
  | cons x xs ih =>
    intro l2 h
    have hx : ¬ pred x = true := by simp [h x (List.mem_cons_self x xs)]
    simp only [List.cons_append, updateFirst, if_neg hx, List.append_eq]
    rw [ih (fun y hy => h y (List.mem_cons.2 (Or.inr hy)))]

theorem find?_append_right {α : Type _} {p : α → Bool} :
    ∀ {l1 l2 : List α}, l1.find? p = none → (l1 ++ l2).find? p = l2.find? p := by
  intro l1
  induction l1 with
  | nil => intro l2 _; simp
  | cons x xs ih =>
    intro l2 h
    have hx : ¬ p x = true := by
      intro hx
      rw [List.find?_cons_of_pos _ hx] at h
      cases h
    rw [List.find?_cons_of_neg _ hx] at h
    rw [List.cons_append, List.find?_cons_of_neg _ hx]
    exact ih h

theorem find?_filter_eq {α : Type _} (q p : α → Bool) :
    ∀ (l : List α), (l.filter q).find? p = l.find? (fun x => q x && p x) := by
  intro l
  induction l with
  | nil => simp
  | cons x xs ih =>
    by_cases hq : q x = true
    · rw [List.filter_cons_of_pos hq]
      by_cases hp : p x = true
      · rw [List.find?_cons_of_pos _ hp, List.find?_cons_of_pos _ (by simp [hq, hp])]
      · rw [List.find?_cons_of_neg _ hp, List.find?_cons_of_neg _ (by simp [hq, hp])]
        exact ih
    · rw [List.filter_cons_of_neg (by simpa using hq),
        List.find?_cons_of_neg _ (by simp [hq])]
      exact ih

theorem find?_eq_some_split {α : Type _} {p : α → Bool} :
    ∀ {l : List α} {a : α}, l.find? p = some a →
      p a = true ∧ ∃ l1 l2, l = l1 ++ a :: l2 ∧ ∀ x ∈ l1, p x = false := by
  intro l
  induction l with
  | nil => intro a h; simp [List.find?] at h
  | cons x xs ih =>
    intro a h
    by_cases hx : p x = true
    · rw [List.find?_cons_of_pos _ hx] at h
      cases h
      exact ⟨hx, [], xs, rfl, by simp⟩
    · rw [List.find?_cons_of_neg _ hx] at h
      obtain ⟨hpa, l1, l2, rfl, hl1⟩ := ih h
      refine ⟨hpa, x :: l1, l2, rfl, ?_⟩
      intro y hy
      rcases List.mem_cons.1 hy with rfl | hy
      · simpa using hx
      · exact hl1 y hy

theorem lookup_eq_none_of_not_mem_keys {β : Type _} {s : String} :
    ∀ {tbl : List (String × β)}, s ∉ tbl.map Prod.fst → tbl.lookup s = none := by
  intro tbl
  induction tbl with
  | nil => intro _; rfl
  | cons kv t ih =>
    intro h
    obtain ⟨k, v⟩ := kv
    have hks : s ≠ k := by
      intro heq
      exact h (by simp [heq])
    have hk : (s == k) = false := beq_eq_false_iff_ne.mpr hks
    have ht : s ∉ t.map Prod.fst := by
      intro hmem
      exact h (by simp [hmem])
    simpa [List.lookup, hk] using ih ht

/-! ### Claim C1 -/

/-- Claim C1 fails on the code: running Scenario B of the spec through
`create_refund` on a SUCCEEDED 100.00 payment, a provider-confirmed
refund of 40.00 leaves the Refund row PENDING (never SUCCEEDED) yet
switches the Payment to PARTIALLY_REFUNDED at once from the requested
amount; the refundable amount then computes to 0.00 (not 60.00) because
the payment is no longer SUCCEEDED, and the follow-up refund of 60.00 is
rejected instead of succeeding. -/
theorem create_refund_scenario_b_diverges :
    (Api.create_refund scenarioDB ⟨7, 40, "usd", none, none⟩ 99
      (Except.ok ⟨"re_1"⟩) (Except.ok ⟨"ppr_1"⟩) 10).1 = Except.ok 1 ∧
    ((PaymentCRUD.get_refund_by_id (Api.create_refund scenarioDB
        ⟨7, 40, "usd", none, none⟩ 99 (Except.ok ⟨"re_1"⟩) (Except.ok ⟨"ppr_1"⟩)
        10).2 1).map (fun r => r.status) = some RefundStatus.PENDING) ∧
    ((PaymentCRUD.get_payment_by_id (Api.create_refund scenarioDB
        ⟨7, 40, "usd", none, none⟩ 99 (Except.ok ⟨"re_1"⟩) (Except.ok ⟨"ppr_1"⟩)
        10).2 7).map (fun p => p.status) = some PaymentStatus.PARTIALLY_REFUNDED) ∧
    PaymentCRUD.calculate_refundable_amount (Api.create_refund scenarioDB
      ⟨7, 40, "usd", none, none⟩ 99 (Except.ok ⟨"re_1"⟩) (Except.ok ⟨"ppr_1"⟩)
      10).2 7 = 0 ∧
    (Api.create_refund (Api.create_refund scenarioDB ⟨7, 40, "usd", none, none⟩
        99 (Except.ok ⟨"re_1"⟩) (Except.ok ⟨"ppr_1"⟩) 10).2
      ⟨7, 60, "usd", none, none⟩ 99 (Except.ok ⟨"re_2"⟩) (Except.ok ⟨"ppr_2"⟩)
      20).1 = Except.error (Api.HErr.http 400 "Cannot refund unsuccessful payment") := by
  norm_num [Api.create_refund, PaymentCRUD.get_payment_by_id, scenarioDB,
    scenarioPayment, PaymentCRUD.calculate_refundable_amount,
    PaymentCRUD.create_refund, PaymentCRUD.update_refund_status,
    PaymentCRUD.get_refund_by_id, PaymentCRUD.update_payment_status,
    PaymentCRUD.applyRefundStatus, updateFirst, PaymentCRUD.applyPaymentStatus,
    List.find?, List.filter, pyTruthy]
  all_goals simp

/-! ### Claim C2 -/

/-- The unclamped formula of claim C2 fails on the code: with a 50.00
SUCCEEDED payment carrying an 80.00 SUCCEEDED refund,
`calculate_refundable_amount` returns 0 while "amount minus SUCCEEDED
refund total" is -30. -/
theorem calculate_refundable_amount_claim_counterexample :
    PaymentCRUD.calculate_refundable_amount overRefundDB 1 = 0 ∧
    (PaymentCRUD.get_payment_by_id overRefundDB 1).map (fun p => p.amount) =
      some 50 ∧
    (PaymentCRUD.get_payment_by_id overRefundDB 1).map (fun p => p.status) =
      some PaymentStatus.SUCCEEDED ∧
    succeededRefundTotal overRefundDB 1 = 80 ∧
    (50 : Rat) - 80 ≠ PaymentCRUD.calculate_refundable_amount overRefundDB 1 := by
  norm_num [PaymentCRUD.calculate_refundable_amount, PaymentCRUD.get_payment_by_id,
    succeededRefundTotal, overRefundDB, overRefund, scenarioPayment,
    List.find?, List.filter]

/-- Claim C2 amended: `calculate_refundable_amount` equals the spec
formula clamped at zero — `max 0 (amount - SUCCEEDED refund total)` when
the payment exists and is SUCCEEDED, and 0 when it is absent or in any
other status — recomputed fresh from the store passed in. -/
theorem calculate_refundable_amount_eq_clamped_spec (db : DB)
    (payment_id : Int) :
    PaymentCRUD.calculate_refundable_amount db payment_id =
      refundable_amount_spec db payment_id := by
  unfold PaymentCRUD.calculate_refundable_amount refundable_amount_spec
  cases h : PaymentCRUD.get_payment_by_id db payment_id with
  | none => rfl
  | some payment =>
    by_cases hs : payment.status = PaymentStatus.SUCCEEDED
    · simp only [hs, if_pos rfl, ne_eq, not_true_eq_false, if_false]
      unfold succeededRefundTotal
      set amounts := (db.refunds.filter (fun r =>
        r.payment_id == payment_id && r.status == RefundStatus.SUCCEEDED)).map
        (fun r => r.amount) with ham
      by_cases he : amounts.isEmpty
      · have : amounts = [] := List.isEmpty_iff.mp he
        simp [he, this]
      · simp only [he, if_false]
        by_cases hz : amounts.sum = 0
        · simp [hz]
        · simp [beq_eq_false_iff_ne.mpr hz]
    · simp [hs]

/-! ### Claim C4 -/

/-- Claim C4 fails on the code: PayPal webhook "verification" accepts a
payload carrying any five `PAYPAL-*` headers — two contradictory
signature values over the same body are both accepted, so no
cryptographic signature is validated. -/
theorem paypal_verify_accepts_forged_signature :
    PayPalService.verify_webhook_signature fullHeaders "body-A" "webhook_id" =
      true ∧
    PayPalService.verify_webhook_signature
      { fullHeaders with transmission_sig := some "a-completely-different-value" }
      "body-A" "webhook_id" = true := by
  decide

/-- Claim C4 amended: the Stripe handler delegates verification to the
SDK and returns HTTP 400 with the store untouched when it raises, while
PayPal "verification" is only a presence-and-nonemptiness check of the
five `PAYPAL-*` headers (no signature computation); whenever that check
fails the PayPal handler returns HTTP 400 with the store untouched. -/
theorem webhook_signature_verification_behavior :
    (∀ (headers : PayPalService.PayPalHeaders) (body webhook_id : String),
      PayPalService.verify_webhook_signature headers body webhook_id = true ↔
        (pyTruthy headers.auth_algo = true ∧
         pyTruthy headers.transmission_id = true ∧
         pyTruthy headers.cert_id = true ∧
         pyTruthy headers.transmission_sig = true ∧
         pyTruthy headers.transmission_time = true)) ∧
    (∀ (db : DB) (headers : PayPalService.PayPalHeaders) (body : String)
      (parse_result : Except String Api.PayPalEvent) (now : Nat),
      PayPalService.verify_webhook_signature headers body "webhook_id" = false →
      Api.paypal_webhook db headers body parse_result now =
        (Except.error (Api.HErr.http 400 "Invalid webhook signature"), db)) ∧
    (∀ (db : DB) (msg : String) (now : Nat),
      Api.stripe_webhook db (Except.error msg) now =
        (Except.error (Api.HErr.http 400 msg), db)) := by
  refine ⟨?_, ?_, ?_⟩
  · intro headers body webhook_id
    simp [PayPalService.verify_webhook_signature, and_assoc]
  · intro db headers body parse_result now hv
    simp [Api.paypal_webhook, hv]
  · intro db msg now
    rfl

/-- Witness for the amended C4 theorem: a concrete request missing the
transmission-signature header is rejected with HTTP 400, the store
untouched. -/
theorem webhook_signature_verification_behavior_witness :
    Api.paypal_webhook scenarioDB
      { fullHeaders with transmission_sig := none } "body"
      (Except.ok captureEvent) 0 =
      (Except.error (Api.HErr.http 400 "Invalid webhook signature"),
        scenarioDB) :=
  webhook_signature_verification_behavior.2.1 scenarioDB
    { fullHeaders with transmission_sig := none } "body"
    (Except.ok captureEvent) 0 (by decide)

/-! ### Claim C7 -/

/-- Claim C7: both provider-status tables are exactly as stated, and any
status string outside the table maps to FAILED. -/
theorem provider_status_mapping_tables :
    (StripeService.map_stripe_status_to_payment_status
        "requires_payment_method" = PaymentStatus.PENDING ∧
      StripeService.map_stripe_status_to_payment_status
        "requires_confirmation" = PaymentStatus.PENDING ∧
      StripeService.map_stripe_status_to_payment_status
        "requires_action" = PaymentStatus.PENDING ∧
      StripeService.map_stripe_status_to_payment_status
        "processing" = PaymentStatus.PROCESSING ∧
      StripeService.map_stripe_status_to_payment_status
        "requires_capture" = PaymentStatus.PROCESSING ∧
      StripeService.map_stripe_status_to_payment_status
        "succeeded" = PaymentStatus.SUCCEEDED ∧
      StripeService.map_stripe_status_to_payment_status
        "canceled" = PaymentStatus.CANCELLED) ∧
    (∀ s : String,
      s ∉ (["requires_payment_method", "requires_confirmation",
        "requires_action", "processing", "requires_capture", "succeeded",
        "canceled"] : List String) →
      StripeService.map_stripe_status_to_payment_status s =
        PaymentStatus.FAILED) ∧
    (PayPalService.map_paypal_status_to_payment_status "CREATED" =
        PaymentStatus.PENDING ∧
      PayPalService.map_paypal_status_to_payment_status "SAVED" =
        PaymentStatus.PENDING ∧
      PayPalService.map_paypal_status_to_payment_status
        "PAYER_ACTION_REQUIRED" = PaymentStatus.PENDING ∧
      PayPalService.map_paypal_status_to_payment_status "APPROVED" =
        PaymentStatus.PROCESSING ∧
      PayPalService.map_paypal_status_to_payment_status "COMPLETED" =
        PaymentStatus.SUCCEEDED ∧
      PayPalService.map_paypal_status_to_payment_status "VOIDED" =
        PaymentStatus.CANCELLED) ∧
    (∀ s : String,
      s ∉ (["CREATED", "SAVED", "APPROVED", "VOIDED", "COMPLETED",
        "PAYER_ACTION_REQUIRED"] : List String) →
      PayPalService.map_paypal_status_to_payment_status s =
        PaymentStatus.FAILED) := by
  refine ⟨by decide, ?_, by decide, ?_⟩
  · intro s hs
    simp only [List.mem_cons, List.not_mem_nil, or_false, not_or] at hs
    obtain ⟨h1, h2, h3, h4, h5, h6, h7⟩ := hs
    simp [StripeService.map_stripe_status_to_payment_status, List.lookup,
      beq_eq_false_iff_ne.mpr h1, beq_eq_false_iff_ne.mpr h2,
      beq_eq_false_iff_ne.mpr h3, beq_eq_false_iff_ne.mpr h4,
      beq_eq_false_iff_ne.mpr h5, beq_eq_false_iff_ne.mpr h6,
      beq_eq_false_iff_ne.mpr h7]
  · intro s hs
    simp only [List.mem_cons, List.not_mem_nil, or_false, not_or] at hs
    obtain ⟨h1, h2, h3, h4, h5, h6⟩ := hs
    simp [PayPalService.map_paypal_status_to_payment_status, List.lookup,
      beq_eq_false_iff_ne.mpr h1, beq_eq_false_iff_ne.mpr h2,
      beq_eq_false_iff_ne.mpr h3, beq_eq_false_iff_ne.mpr h4,
      beq_eq_false_iff_ne.mpr h5, beq_eq_false_iff_ne.mpr h6]

/-! ### Claim C3 -/

/-- Claim C3 fails on the code: delivering the identical
`payment_intent.succeeded` event twice returns success both times, but
the second (replayed) delivery against the already-SUCCEEDED payment
still mutates the row — `succeeded_at` moves from the first delivery
time (10) to the replay time (11), so the state after the replay differs
from the state before it. -/
theorem stripe_webhook_replay_counterexample :
    (Api.stripe_webhook replayDB (Except.ok replayEvent) 10).1 =
      Except.ok "success" ∧
    ((PaymentCRUD.get_payment_by_id
        (Api.stripe_webhook replayDB (Except.ok replayEvent) 10).2 9).map
      (fun p => (p.status, p.succeeded_at)) =
        some (PaymentStatus.SUCCEEDED, some 10)) ∧
    (Api.stripe_webhook (Api.stripe_webhook replayDB (Except.ok replayEvent)
        10).2 (Except.ok replayEvent) 11).1 = Except.ok "success" ∧
    ((PaymentCRUD.get_payment_by_id (Api.stripe_webhook (Api.stripe_webhook
        replayDB (Except.ok replayEvent) 10).2 (Except.ok replayEvent) 11).2
        9).map (fun p => (p.status, p.succeeded_at)) =
        some (PaymentStatus.SUCCEEDED, some 11)) ∧
    (Api.stripe_webhook (Api.stripe_webhook replayDB (Except.ok replayEvent)
        10).2 (Except.ok replayEvent) 11).2 ≠
      (Api.stripe_webhook replayDB (Except.ok replayEvent) 10).2 := by
  norm_num [Api.stripe_webhook, Api.extractChargeId,
    PaymentCRUD.get_payment_by_provider_id, PaymentCRUD.get_payment_by_id,
    PaymentCRUD.update_payment_status, PaymentCRUD.applyPaymentStatus,
    updateFirst, replayDB, replayEvent, scenarioPayment, List.find?, pyTruthy]
  all_goals simp

/-- Claim C3 amended: replaying a `payment_intent.succeeded` event whose
charge extraction succeeds against a Payment already SUCCEEDED returns
success and leaves the status and (for the identical event) the
provider_charge_id value unchanged, but `update_payment_status` runs
unconditionally — there is no already-terminal no-op check — so
`succeeded_at` (and `updated_at`) are re-stamped to the replay time;
rows with a different id are untouched. -/
theorem stripe_webhook_replay_restamps (db : DB) (event : Api.StripeEvent)
    (payment : Payment) (cid : Option String) (now2 : Nat)
    (htype : event.type_ = "payment_intent.succeeded")
    (hfound : PaymentCRUD.get_payment_by_provider_id db event.obj.id =
      some payment)
    (hterm : payment.status = PaymentStatus.SUCCEEDED)
    (hbyid : PaymentCRUD.get_payment_by_id db payment.id = some payment)
    (hch : Api.extractChargeId event.obj.charges_data = Except.ok cid)
    (hsame : cid = payment.provider_charge_id ∨ pyTruthy cid = false) :
    (Api.stripe_webhook db (Except.ok event) now2).1 = Except.ok "success" ∧
    PaymentCRUD.get_payment_by_id
        (Api.stripe_webhook db (Except.ok event) now2).2 payment.id =
      some { payment with succeeded_at := some now2, updated_at := some now2 } ∧
    ∀ q ∈ db.payments, (q.id == payment.id) = false →
      q ∈ (Api.stripe_webhook db (Except.ok event) now2).2.payments := by
  have happly : PaymentCRUD.applyPaymentStatus payment PaymentStatus.SUCCEEDED
      none cid none none now2 =
      { payment with succeeded_at := some now2, updated_at := some now2 } := by
    obtain ⟨i1, i2, i3, a, c, st, pr, f1, f2, f3, f4, f5, f6, t1, t2, t3, t4⟩ :=
      payment
    simp only [PaymentCRUD.applyPaymentStatus, pyTruthy]
    rcases hsame with h | h
    · subst h
      simp at hterm
      by_cases hp : pyTruthy f1 = true <;>
        simp_all [pyTruthy]
    · simp_all [pyTruthy]
  have hwh : Api.stripe_webhook db (Except.ok event) now2 =
      (Except.ok "success",
        (PaymentCRUD.update_payment_status db payment.id
          PaymentStatus.SUCCEEDED none cid none none now2).2) := by
    simp [Api.stripe_webhook, htype, hfound, hch]
  have hup : (PaymentCRUD.update_payment_status db payment.id
      PaymentStatus.SUCCEEDED none cid none none now2).2.payments =
      updateFirst (fun p => p.id == payment.id)
        (fun p => PaymentCRUD.applyPaymentStatus p PaymentStatus.SUCCEEDED
          none cid none none now2) db.payments := by
    simp [PaymentCRUD.update_payment_status, hbyid]
  have hfind : db.payments.find? (fun p => p.id == payment.id) =
      some payment := hbyid
  refine ⟨by rw [hwh], ?_, ?_⟩
  · rw [hwh]
    show (PaymentCRUD.update_payment_status db payment.id
      PaymentStatus.SUCCEEDED none cid none none
      now2).2.payments.find? (fun p => p.id == payment.id) = _
    rw [hup]
    rw [find?_updateFirst_self hfind (by rw [happly]; simp)]
    rw [happly]
  · intro q hq hne
    rw [hwh]
    show q ∈ (PaymentCRUD.update_payment_status db payment.id
      PaymentStatus.SUCCEEDED none cid none none now2).2.payments
    rw [hup]
    exact mem_updateFirst_of_pred_false hne hq

/-- Witness for the amended C3 theorem at the concrete replayed store:
the payment is already SUCCEEDED with charge `ch_9`, and the replay at
time 11 re-stamps `succeeded_at` to 11. -/
theorem stripe_webhook_replay_restamps_witness :
    (Api.stripe_webhook (Api.stripe_webhook replayDB (Except.ok replayEvent)
        10).2 (Except.ok replayEvent) 11).1 = Except.ok "success" :=
  (stripe_webhook_replay_restamps
    (Api.stripe_webhook replayDB (Except.ok replayEvent) 10).2 replayEvent
    { scenarioPayment with
        id := 9
        status := PaymentStatus.SUCCEEDED
        provider_payment_id := some "pi_9"
        provider_charge_id := some "ch_9"
        succeeded_at := some 10
        updated_at := some 10 }
    (some "ch_9") 11 rfl (by decide) (by decide) (by decide) rfl
    (Or.inl (by decide))).1

/-! ### Claim C5 -/

/-- Claim C5: `create_payment_intent` fails 404 when the purchase is
absent, 403 when the purchase owner differs from the requesting user,
and 400 "Purchase already paid" when some existing payment for the
purchase is SUCCEEDED — and in each failure the store (so in particular
the payments table) is returned unchanged: the Payment insert only
happens after all three checks pass. -/
theorem create_payment_intent_rejections (db : DB)
    (intent_data : Api.PaymentIntentCreate) (current_user : Int)
    (stripe_result : Except String Api.StripeIntent)
    (paypal_result : Except String Api.PayPalOrder) (now : Nat) :
    (get_purchase db intent_data.purchase_id = none →
      Api.create_payment_intent db intent_data current_user stripe_result
        paypal_result now =
        (Except.error (Api.HErr.http 404 "Purchase not found"), db)) ∧
    (∀ purchase, get_purchase db intent_data.purchase_id = some purchase →
      purchase.customer_id ≠ current_user →
      Api.create_payment_intent db intent_data current_user stripe_result
        paypal_result now =
        (Except.error
          (Api.HErr.http 403 "Not authorized to pay for this purchase"), db)) ∧
    (∀ purchase, get_purchase db intent_data.purchase_id = some purchase →
      purchase.customer_id = current_user →
      (∃ p ∈ PaymentCRUD.get_payments_by_purchase db intent_data.purchase_id,
        p.status = PaymentStatus.SUCCEEDED) →
      Api.create_payment_intent db intent_data current_user stripe_result
        paypal_result now =
        (Except.error (Api.HErr.http 400 "Purchase already paid"), db)) := by
  refine ⟨?_, ?_, ?_⟩
  · intro h
    simp [Api.create_payment_intent, h]
  · intro purchase h hne
    simp [Api.create_payment_intent, h, hne]
  · intro purchase h heq hex
    have hany : (PaymentCRUD.get_payments_by_purchase db
        intent_data.purchase_id).any
        (fun p => p.status == PaymentStatus.SUCCEEDED) = true := by
      obtain ⟨p, hp, hps⟩ := hex
      exact List.any_eq_true.2 ⟨p, hp, by simp [hps]⟩
    simp [Api.create_payment_intent, h, heq, hany]

/-- Witness for C5 at the concrete store: purchase #2 is absent (404),
purchase #1 is not owned by user #5 (403), and purchase #1 already has
SUCCEEDED payment #7 (400), each leaving the store unchanged. -/
theorem create_payment_intent_rejections_witness :
    (Api.create_payment_intent scenarioDB ⟨2, PaymentProvider.STRIPE, none,
        none, none⟩ 1 (Except.ok ⟨"pi_x", "cs_x", "usd"⟩)
        (Except.ok ⟨"ord_x", none, "USD"⟩) 5 =
      (Except.error (Api.HErr.http 404 "Purchase not found"), scenarioDB)) ∧
    (Api.create_payment_intent scenarioDB ⟨1, PaymentProvider.STRIPE, none,
        none, none⟩ 5 (Except.ok ⟨"pi_x", "cs_x", "usd"⟩)
        (Except.ok ⟨"ord_x", none, "USD"⟩) 5 =
      (Except.error
        (Api.HErr.http 403 "Not authorized to pay for this purchase"),
        scenarioDB)) ∧
    (Api.create_payment_intent scenarioDB ⟨1, PaymentProvider.STRIPE, none,
        none, none⟩ 1 (Except.ok ⟨"pi_x", "cs_x", "usd"⟩)
        (Except.ok ⟨"ord_x", none, "USD"⟩) 5 =
      (Except.error (Api.HErr.http 400 "Purchase already paid"), scenarioDB)) :=
  ⟨(create_payment_intent_rejections scenarioDB
      ⟨2, PaymentProvider.STRIPE, none, none, none⟩ 1
      (Except.ok ⟨"pi_x", "cs_x", "usd"⟩) (Except.ok ⟨"ord_x", none, "USD"⟩)
      5).1 (by decide),
   (create_payment_intent_rejections scenarioDB
      ⟨1, PaymentProvider.STRIPE, none, none, none⟩ 5
      (Except.ok ⟨"pi_x", "cs_x", "usd"⟩) (Except.ok ⟨"ord_x", none, "USD"⟩)
      5).2.1 ⟨1, 1, 100⟩ (by decide) (by decide),
   (create_payment_intent_rejections scenarioDB
      ⟨1, PaymentProvider.STRIPE, none, none, none⟩ 1
      (Except.ok ⟨"pi_x", "cs_x", "usd"⟩) (Except.ok ⟨"ord_x", none, "USD"⟩)
      5).2.2 ⟨1, 1, 100⟩ (by decide) (by decide)
      ⟨scenarioPayment, by decide, by decide⟩⟩

/-! ### Claim C6 -/

/-- Claim C6: when the provider adapter raises during intent creation
(after all validation passed), the handler returns the error as HTTP 400
and the store gains exactly one Payment row — the row of the attempt, updated
in place to FAILED with `failure_message` set to the raised message, no
provider reference, and `failed_at` stamped — and the refunds table is
untouched; the row is retained, not deleted. -/
theorem create_payment_intent_provider_failure_audit (db : DB)
    (intent_data : Api.PaymentIntentCreate) (current_user : Int)
    (purchase : Purchase) (now : Nat)
    (stripe_result : Except String Api.StripeIntent)
    (paypal_result : Except String Api.PayPalOrder)
    (hpu : get_purchase db intent_data.purchase_id = some purchase)
    (howner : purchase.customer_id = current_user)
    (hnopaid : ∀ p ∈ PaymentCRUD.get_payments_by_purchase db
      intent_data.purchase_id, p.status ≠ PaymentStatus.SUCCEEDED)
    (hfresh : ∀ p ∈ db.payments, p.id ≠ db.next_payment_id) :
    (∀ msg : String, msg ≠ "" →
      ((intent_data.provider = PaymentProvider.STRIPE ∧
          stripe_result = Except.error msg) ∨
        (intent_data.provider = PaymentProvider.PAYPAL ∧
          paypal_result = Except.error msg)) →
      Api.create_payment_intent db intent_data current_user stripe_result
        paypal_result now =
        (Except.error (Api.HErr.http 400 msg),
          { db with
              payments := db.payments ++
                [{ id := db.next_payment_id
                   purchase_id := intent_data.purchase_id
                   user_id := current_user
                   amount := purchase.total_price
                   currency := "usd"
                   status := PaymentStatus.FAILED
                   provider := intent_data.provider
                   provider_payment_id := none
                   provider_charge_id := none
                   payment_method := intent_data.payment_method_type
                   payment_metadata := intent_data.metadata.getD []
                   failure_code := none
                   failure_message := some msg
                   created_at := now
                   updated_at := some now
                   succeeded_at := none
                   failed_at := some now }]
              next_payment_id := db.next_payment_id + 1 })) ∧
    (((intent_data.provider = PaymentProvider.STRIPE ∧
        (∃ si, stripe_result = Except.ok si)) ∨
      (intent_data.provider = PaymentProvider.PAYPAL ∧
        (∃ od, paypal_result = Except.ok od))) →
      (Api.create_payment_intent db intent_data current_user stripe_result
        paypal_result now).2.payments.length = db.payments.length + 1 ∧
      ∀ q ∈ db.payments,
        q ∈ (Api.create_payment_intent db intent_data current_user
          stripe_result paypal_result now).2.payments) := by
  have hnone : db.payments.find? (fun p => p.id == db.next_payment_id) =
      none :=
    List.find?_eq_none.mpr (fun p hp => by simp [hfresh p hp])
  have hanyf : (PaymentCRUD.get_payments_by_purchase db
      intent_data.purchase_id).any
      (fun p => p.status == PaymentStatus.SUCCEEDED) = false := by
    rw [List.any_eq_false]
    intro p hp
    simp [hnopaid p hp]
  have hfind1 : ∀ (q : Payment), q.id = db.next_payment_id →
      (db.payments ++ [q]).find? (fun p => p.id == db.next_payment_id) =
        some q := by
    intro q hq
    rw [find?_append_right hnone]
    simp [List.find?, hq]
  have hupdf : ∀ (q : Payment) (f : Payment → Payment),
      q.id = db.next_payment_id →
      updateFirst (fun p => p.id == db.next_payment_id) f
        (db.payments ++ [q]) = db.payments ++ [f q] := by
    intro q f hq
    rw [updateFirst_append_of_forall_false (fun p hp => by simp [hfresh p hp])]
    simp [updateFirst, hq]
  constructor
  · intro msg hmsg hfail
    rcases hfail with ⟨hprov, hres⟩ | ⟨hprov, hres⟩ <;> subst hres <;>
      simp [Api.create_payment_intent, hpu, howner, hanyf, hprov,
        PaymentCRUD.create_payment, PaymentCRUD.update_payment_status,
        PaymentCRUD.get_payment_by_id, hfind1, hupdf,
        PaymentCRUD.applyPaymentStatus, pyTruthy, hmsg]
  · intro hok
    rcases hok with ⟨hprov, si, hres⟩ | ⟨hprov, od, hres⟩
    · subst hres
      constructor
      · simp [Api.create_payment_intent, hpu, howner, hanyf, hprov,
          PaymentCRUD.create_payment, PaymentCRUD.update_payment_status,
          PaymentCRUD.get_payment_by_id, hfind1, hupdf]
      · intro q hq
        simp [Api.create_payment_intent, hpu, howner, hanyf, hprov,
          PaymentCRUD.create_payment, PaymentCRUD.update_payment_status,
          PaymentCRUD.get_payment_by_id, hfind1, hupdf, hq]
    · subst hres
      constructor
      · simp [Api.create_payment_intent, hpu, howner, hanyf, hprov,
          PaymentCRUD.create_payment, PaymentCRUD.update_payment_status,
          PaymentCRUD.get_payment_by_id, hfind1, hupdf]
      · intro q hq
        simp [Api.create_payment_intent, hpu, howner, hanyf, hprov,
          PaymentCRUD.create_payment, PaymentCRUD.update_payment_status,
          PaymentCRUD.get_payment_by_id, hfind1, hupdf, hq]

/-- Witness for C6: one concrete intent attempt against a Stripe adapter
raising "card_declined" inserts exactly one FAILED row. -/
theorem create_payment_intent_provider_failure_audit_witness :
    Api.create_payment_intent intentDB
      ⟨1, PaymentProvider.STRIPE, none, none, none⟩ 1
      (Except.error "card_declined") (Except.ok ⟨"ord_x", none, "USD"⟩) 4 =
      (Except.error (Api.HErr.http 400 "card_declined"),
        { intentDB with
            payments :=
              [{ id := 1
                 purchase_id := 1
                 user_id := 1
                 amount := 50
                 currency := "usd"
                 status := PaymentStatus.FAILED
                 provider := PaymentProvider.STRIPE
                 provider_payment_id := none
                 provider_charge_id := none
                 payment_method := none
                 payment_metadata := []
                 failure_code := none
                 failure_message := some "card_declined"
                 created_at := 4
                 updated_at := some 4
                 succeeded_at := none
                 failed_at := some 4 }]
            next_payment_id := 2 }) := by
  have h := (create_payment_intent_provider_failure_audit intentDB
    ⟨1, PaymentProvider.STRIPE, none, none, none⟩ 1 ⟨1, 1, 50⟩
    4 (Except.error "card_declined") (Except.ok ⟨"ord_x", none, "USD"⟩)
    (by decide) (by decide) (by decide) (by decide)).1 "card_declined"
    (by decide) (Or.inl ⟨rfl, rfl⟩)
  simpa [intentDB] using h

/-! ### Claim C8 -/

/-- Claim C8: a verified webhook event whose provider reference (Stripe:
`payment_intent.id`; PayPal: the purchase id carried in `custom_id`)
matches no local Payment causes no store mutation and still yields a
success response, for both provider payment-succeeded and
payment-failed event types. -/
theorem webhook_unknown_reference_is_noop (db : DB) :
    (∀ (event : Api.StripeEvent) (now : Nat),
      (event.type_ = "payment_intent.succeeded" ∨
        event.type_ = "payment_intent.payment_failed") →
      PaymentCRUD.get_payment_by_provider_id db event.obj.id = none →
      Api.stripe_webhook db (Except.ok event) now =
        (Except.ok "success", db)) ∧
    (∀ (headers : PayPalService.PayPalHeaders) (body : String)
      (event : Api.PayPalEvent) (now : Nat) (cid : String) (pid : Int),
      PayPalService.verify_webhook_signature headers body "webhook_id" = true →
      (event.event_type = some "PAYMENT.CAPTURE.COMPLETED" ∨
        event.event_type = some "PAYMENT.CAPTURE.DENIED") →
      event.resource.custom_id = some cid → pyInt? cid = some pid →
      PaymentCRUD.get_payments_by_purchase db pid = [] →
      Api.paypal_webhook db headers body (Except.ok event) now =
        (Except.ok "success", db)) := by
  constructor
  · intro event now htype hmiss
    rcases htype with h | h <;> simp [Api.stripe_webhook, h, hmiss]
  · intro headers body event now cid pid hv htype hcid hint hempty
    rcases htype with h | h <;>
      simp [Api.paypal_webhook, hv, h, hcid, hint, hempty, List.find?]

/-- Witness for C8: a Stripe succeeded event for an unknown intent and a
PayPal capture event for a purchase with no payments are both swallowed
as successes against the empty-reference store. -/
theorem webhook_unknown_reference_is_noop_witness :
    Api.stripe_webhook intentDB
      (Except.ok ⟨"payment_intent.succeeded", ⟨"pi_unknown", none, none, none⟩⟩)
      3 = (Except.ok "success", intentDB) ∧
    Api.paypal_webhook intentDB fullHeaders "body"
      (Except.ok ⟨some "PAYMENT.CAPTURE.COMPLETED",
        ⟨some "cap_9", some "42"⟩⟩) 3 = (Except.ok "success", intentDB) :=
  ⟨(webhook_unknown_reference_is_noop intentDB).1
      ⟨"payment_intent.succeeded", ⟨"pi_unknown", none, none, none⟩⟩ 3
      (Or.inl rfl) (by decide),
   (webhook_unknown_reference_is_noop intentDB).2 fullHeaders "body"
      ⟨some "PAYMENT.CAPTURE.COMPLETED", ⟨some "cap_9", some "42"⟩⟩ 3 "42" 42
      (by decide) (Or.inl rfl) rfl (by decide) (by decide)⟩

/-! ### Claim C9 -/

/-- Per-field description of `applyPaymentStatus`: identity and business
fields are copied, `status` is overwritten, each optional argument is
written only when truthy, and the status-determined timestamp plus
`updated_at` are stamped. -/
theorem applyPaymentStatus_spec (p : Payment) (status : PaymentStatus)
    (ppid pcid fc fm : Option String) (now : Nat) :
    (PaymentCRUD.applyPaymentStatus p status ppid pcid fc fm now).id = p.id ∧
    (PaymentCRUD.applyPaymentStatus p status ppid pcid fc fm now).purchase_id =
      p.purchase_id ∧
    (PaymentCRUD.applyPaymentStatus p status ppid pcid fc fm now).user_id =
      p.user_id ∧
    (PaymentCRUD.applyPaymentStatus p status ppid pcid fc fm now).amount =
      p.amount ∧
    (PaymentCRUD.applyPaymentStatus p status ppid pcid fc fm now).currency =
      p.currency ∧
    (PaymentCRUD.applyPaymentStatus p status ppid pcid fc fm now).provider =
      p.provider ∧
    (PaymentCRUD.applyPaymentStatus p status ppid pcid fc fm
      now).payment_method = p.payment_method ∧
    (PaymentCRUD.applyPaymentStatus p status ppid pcid fc fm
      now).payment_metadata = p.payment_metadata ∧
    (PaymentCRUD.applyPaymentStatus p status ppid pcid fc fm now).created_at =
      p.created_at ∧
    (PaymentCRUD.applyPaymentStatus p status ppid pcid fc fm now).status =
      status ∧
    (PaymentCRUD.applyPaymentStatus p status ppid pcid fc fm
      now).provider_payment_id =
        (if pyTruthy ppid then ppid else p.provider_payment_id) ∧
    (PaymentCRUD.applyPaymentStatus p status ppid pcid fc fm
      now).provider_charge_id =
        (if pyTruthy pcid then pcid else p.provider_charge_id) ∧
    (PaymentCRUD.applyPaymentStatus p status ppid pcid fc fm
      now).failure_code = (if pyTruthy fc then fc else p.failure_code) ∧
    (PaymentCRUD.applyPaymentStatus p status ppid pcid fc fm
      now).failure_message = (if pyTruthy fm then fm else p.failure_message) ∧
    (PaymentCRUD.applyPaymentStatus p status ppid pcid fc fm
      now).succeeded_at =
        (if status = PaymentStatus.SUCCEEDED then some now
          else p.succeeded_at) ∧
    (PaymentCRUD.applyPaymentStatus p status ppid pcid fc fm now).failed_at =
      (if status = PaymentStatus.FAILED ∨ status = PaymentStatus.CANCELLED
        then some now else p.failed_at) ∧
    (PaymentCRUD.applyPaymentStatus p status ppid pcid fc fm now).updated_at =
      some now := by
  unfold PaymentCRUD.applyPaymentStatus
  by_cases h1 : pyTruthy ppid = true <;> by_cases h2 : pyTruthy pcid = true <;>
    by_cases h3 : pyTruthy fc = true <;> by_cases h4 : pyTruthy fm = true <;>
    cases status <;> simp [h1, h2, h3, h4]

/-- Claim C9: a call to `update_payment_status` that finds the payment
replaces exactly that row by `applyPaymentStatus` of it — which keeps
every identity/business field, overwrites `status`, writes an optional
field only when the passed value is truthy (so `None`/`""` never clears
a stored value), and stamps the status-determined timestamp — while
every other payments row and the purchases/refunds tables are
untouched. -/
theorem update_payment_status_frame (db : DB) (payment_id : Int)
    (status : PaymentStatus) (ppid pcid fc fm : Option String) (now : Nat)
    (payment : Payment)
    (h : PaymentCRUD.get_payment_by_id db payment_id = some payment) :
    (PaymentCRUD.update_payment_status db payment_id status ppid pcid fc fm
        now).1 =
      some (PaymentCRUD.applyPaymentStatus payment status ppid pcid fc fm
        now) ∧
    (PaymentCRUD.applyPaymentStatus payment status ppid pcid fc fm now).amount =
      payment.amount ∧
    (PaymentCRUD.applyPaymentStatus payment status ppid pcid fc fm
      now).purchase_id = payment.purchase_id ∧
    (PaymentCRUD.applyPaymentStatus payment status ppid pcid fc fm
      now).user_id = payment.user_id ∧
    (PaymentCRUD.applyPaymentStatus payment status ppid pcid fc fm
      now).currency = payment.currency ∧
    (PaymentCRUD.applyPaymentStatus payment status ppid pcid fc fm
      now).provider = payment.provider ∧
    (PaymentCRUD.applyPaymentStatus payment status ppid pcid fc fm
      now).payment_method = payment.payment_method ∧
    (PaymentCRUD.applyPaymentStatus payment status ppid pcid fc fm
      now).payment_metadata = payment.payment_metadata ∧
    (PaymentCRUD.applyPaymentStatus payment status ppid pcid fc fm
      now).created_at = payment.created_at ∧
    (PaymentCRUD.applyPaymentStatus payment status ppid pcid fc fm
      now).status = status ∧
    (PaymentCRUD.applyPaymentStatus payment status ppid pcid fc fm
      now).provider_payment_id =
        (if pyTruthy ppid then ppid else payment.provider_payment_id) ∧
    (PaymentCRUD.applyPaymentStatus payment status ppid pcid fc fm
      now).provider_charge_id =
        (if pyTruthy pcid then pcid else payment.provider_charge_id) ∧
    (PaymentCRUD.applyPaymentStatus payment status ppid pcid fc fm
      now).failure_code = (if pyTruthy fc then fc else payment.failure_code) ∧
    (PaymentCRUD.applyPaymentStatus payment status ppid pcid fc fm
      now).failure_message =
        (if pyTruthy fm then fm else payment.failure_message) ∧
    (PaymentCRUD.applyPaymentStatus payment status ppid pcid fc fm
      now).succeeded_at =
        (if status = PaymentStatus.SUCCEEDED then some now
          else payment.succeeded_at) ∧
    (PaymentCRUD.applyPaymentStatus payment status ppid pcid fc fm
      now).failed_at =
        (if status = PaymentStatus.FAILED ∨ status = PaymentStatus.CANCELLED
          then some now else payment.failed_at) ∧
    (∀ q ∈ db.payments, (q.id == payment_id) = false →
      q ∈ (PaymentCRUD.update_payment_status db payment_id status ppid pcid fc
        fm now).2.payments) ∧
    (PaymentCRUD.update_payment_status db payment_id status ppid pcid fc fm
      now).2.refunds = db.refunds ∧
    (PaymentCRUD.update_payment_status db payment_id status ppid pcid fc fm
      now).2.purchases = db.purchases := by
  have hfind : db.payments.find? (fun p => p.id == payment_id) =
      some payment := h
  have hpp0 := List.find?_some hfind
  have hpp : (payment.id == payment_id) = true := hpp0
  have hspec := applyPaymentStatus_spec payment status ppid pcid fc fm now
  obtain ⟨hid, h2, h3, h4, h5, h6, h7, h8, h9, h10, h11, h12, h13, h14, h15,
    h16, h17⟩ := hspec
  have hppf : ((PaymentCRUD.applyPaymentStatus payment status ppid pcid fc fm
      now).id == payment_id) = true := by rw [hid]; exact hpp
  refine ⟨?_, h4, h2, h3, h5, h6, h7, h8, h9, h10, h11, h12, h13, h14, h15,
    h16, ?_, ?_, ?_⟩
  · show (PaymentCRUD.update_payment_status db payment_id status ppid pcid fc
      fm now).1 = _
    simp only [PaymentCRUD.update_payment_status, hfind,
      PaymentCRUD.get_payment_by_id]
    exact find?_updateFirst_self hfind hppf
  · intro q hq hne
    simp only [PaymentCRUD.update_payment_status, hfind,
      PaymentCRUD.get_payment_by_id]
    exact mem_updateFirst_of_pred_false hne hq
  · simp only [PaymentCRUD.update_payment_status, hfind,
      PaymentCRUD.get_payment_by_id]
  · simp only [PaymentCRUD.update_payment_status, hfind,
      PaymentCRUD.get_payment_by_id]

/-- Witness for C9: updating payment #7 to FAILED with a failure message
but `provider_charge_id := none` returns the row with the message set,
the charge id preserved, and `failed_at` stamped. -/
theorem update_payment_status_frame_witness :
    (PaymentCRUD.update_payment_status scenarioDB 7 PaymentStatus.FAILED none
        none none (some "boom") 6).1 =
      some (PaymentCRUD.applyPaymentStatus scenarioPayment PaymentStatus.FAILED
        none none none (some "boom") 6) :=
  (update_payment_status_frame scenarioDB 7 PaymentStatus.FAILED none none
    none (some "boom") 6 scenarioPayment (by decide)).1

/-! ### Claim C10 -/

/-- Claim C10: with a verified PayPal `PAYMENT.CAPTURE.COMPLETED` or
`PAYMENT.CAPTURE.DENIED` event (over a store with distinct payment ids),
a non-integer `custom_id` causes no mutation, and an integer `custom_id`
updates at most one row: the store is either returned unchanged or
decomposes as `l1 ++ payment :: l2` where `payment` is the first
PENDING-PayPal payment of the referenced purchase (no earlier row of
that purchase is PENDING PayPal) and only that row is replaced — by its
SUCCEEDED update for COMPLETED, or its FAILED update for DENIED — with
the refunds table untouched. -/
theorem paypal_capture_updates_at_most_one (db : DB)
    (headers : PayPalService.PayPalHeaders) (body : String)
    (event : Api.PayPalEvent) (now : Nat)
    (hv : PayPalService.verify_webhook_signature headers body "webhook_id" =
      true)
    (htype : event.event_type = some "PAYMENT.CAPTURE.COMPLETED" ∨
      event.event_type = some "PAYMENT.CAPTURE.DENIED")
    (hnodup : (db.payments.map (fun p => p.id)).Nodup) :
    (∀ cid, event.resource.custom_id = some cid → pyInt? cid = none →
      Api.paypal_webhook db headers body (Except.ok event) now =
        (Except.ok "success", db)) ∧
    (∀ cid pid, event.resource.custom_id = some cid →
      pyInt? cid = some pid →
      (Api.paypal_webhook db headers body (Except.ok event) now).1 =
        Except.ok "success" ∧
      ((Api.paypal_webhook db headers body (Except.ok event) now).2 = db ∨
        ∃ l1 payment l2,
          db.payments = l1 ++ payment :: l2 ∧
          payment.provider = PaymentProvider.PAYPAL ∧
          payment.status = PaymentStatus.PENDING ∧
          payment.purchase_id = pid ∧
          (∀ x ∈ l1, ¬(x.purchase_id = pid ∧
            x.provider = PaymentProvider.PAYPAL ∧
            x.status = PaymentStatus.PENDING)) ∧
          (Api.paypal_webhook db headers body (Except.ok event)
              now).2.payments =
            l1 ++ (if event.event_type = some "PAYMENT.CAPTURE.COMPLETED" then
                PaymentCRUD.applyPaymentStatus payment PaymentStatus.SUCCEEDED
                  none event.resource.id none none now
              else
                PaymentCRUD.applyPaymentStatus payment PaymentStatus.FAILED
                  none none none (some "Payment denied by PayPal") now) ::
              l2 ∧
          (Api.paypal_webhook db headers body (Except.ok event) now).2.refunds =
            db.refunds)) := by
  constructor
  · intro cid hcid hnone
    rcases htype with h | h <;>
      simp [Api.paypal_webhook, hv, h, hcid, hnone]
  · intro cid pid hcid hint
    rcases htype with h | h
    all_goals
      cases hfind : (PaymentCRUD.get_payments_by_purchase db pid).find?
        (fun p => p.provider == PaymentProvider.PAYPAL &&
          p.status == PaymentStatus.PENDING) with
    | none =>
      constructor
      · simp [Api.paypal_webhook, hv, h, hcid, hint, hfind]
      · left
        simp [Api.paypal_webhook, hv, h, hcid, hint, hfind]
    | some payment =>
      have hcomb : db.payments.find? (fun x => (x.purchase_id == pid) &&
          ((x.provider == PaymentProvider.PAYPAL) &&
            (x.status == PaymentStatus.PENDING))) = some payment := by
        rw [← find?_filter_eq]
        exact hfind
      obtain ⟨hcombp, l1, l2, hdecomp, hl1⟩ := find?_eq_some_split hcomb
      have hprops : payment.purchase_id = pid ∧
          payment.provider = PaymentProvider.PAYPAL ∧
          payment.status = PaymentStatus.PENDING := by
        simpa using hcombp
      have hnd := hnodup
      rw [hdecomp, List.map_append, List.map_cons] at hnd
      have hdisj := (List.nodup_append.mp hnd).2.2
      have hl1id : ∀ x ∈ l1, (x.id == payment.id) = false := by
        intro x hx
        have hmem : x.id ∈ l1.map (fun p => p.id) := List.mem_map_of_mem _ hx
        have hne : x.id ≠ payment.id := by
          intro heq
          exact hdisj hmem (by rw [heq]; exact List.mem_cons_self _ _)
        simp [hne]
      have hfindid : db.payments.find? (fun p => p.id == payment.id) =
          some payment := by
        rw [hdecomp, find?_append_right
          (List.find?_eq_none.mpr (fun x hx => by simp [hl1id x hx]))]
        exact List.find?_cons_of_pos _ (by simp)
      have hupd : ∀ (f : Payment → Payment),
          updateFirst (fun p => p.id == payment.id) f db.payments =
            l1 ++ f payment :: l2 := by
        intro f
        rw [hdecomp, updateFirst_append_of_forall_false
          (fun x hx => hl1id x hx)]
        simp [updateFirst]
      have hnotfirst : ∀ x ∈ l1, ¬(x.purchase_id = pid ∧
          x.provider = PaymentProvider.PAYPAL ∧
          x.status = PaymentStatus.PENDING) := by
        intro x hx hcontra
        have hfalse := hl1 x hx
        simp [hcontra.1, hcontra.2.1, hcontra.2.2] at hfalse
      refine ⟨?_, Or.inr ⟨l1, payment, l2, hdecomp, hprops.2.1, hprops.2.2,
        hprops.1, hnotfirst, ?_, ?_⟩⟩
      · simp [Api.paypal_webhook, hv, h, hcid, hint, hfind,
          PaymentCRUD.update_payment_status, PaymentCRUD.get_payment_by_id,
          hfindid]
      · simp [Api.paypal_webhook, hv, h, hcid, hint, hfind,
          PaymentCRUD.update_payment_status, PaymentCRUD.get_payment_by_id,
          hfindid, hupd]
      · simp [Api.paypal_webhook, hv, h, hcid, hint, hfind,
          PaymentCRUD.update_payment_status, PaymentCRUD.get_payment_by_id,
          hfindid]

/-- Witness for C10: a verified COMPLETED capture for purchase #3
against the four-payment store is processed successfully (and, by the
theorem, touches at most the first PENDING PayPal row of purchase #3). -/
theorem paypal_capture_updates_at_most_one_witness :
    (Api.paypal_webhook captureDB fullHeaders "body"
      (Except.ok captureEvent) 7).1 = Except.ok "success" :=
  ((paypal_capture_updates_at_most_one captureDB fullHeaders "body"
      captureEvent 7 (by decide) (Or.inl rfl) (by decide)).2 "3" 3 rfl
      (by decide)).1

/-- Witness for C7: an out-of-table provider status maps to FAILED. -/
theorem provider_status_mapping_tables_witness :
    StripeService.map_stripe_status_to_payment_status "mystery_status" =
      PaymentStatus.FAILED ∧
    PayPalService.map_paypal_status_to_payment_status "MYSTERY" =
      PaymentStatus.FAILED :=
  ⟨provider_status_mapping_tables.2.1 "mystery_status" (by decide),
   provider_status_mapping_tables.2.2.2 "MYSTERY" (by decide)⟩

end ShopSphere
